import Mathlib

/-!
Shallow embedding of the ntuiot repository (two Python scripts):
  * `src/iot_mqtt.py` — an MQTT-driven shelf-sensor ingester: topic dispatch,
    a per-shelf threshold analysis, and an append-only SQLite table
    `sensor_data`, modelled here as a list of rows.
  * `src/iot_firebase_pb.py` — a one-shot Firebase inventory patcher:
    fetches the `product` collection, scans it for a `rack_id` match and
    updates the matched document's `number` field.

Python floats are modelled as exact rationals (the arithmetic involved is
plain field arithmetic on small decimal constants); Python dicts as
association lists; the SQLite table as a list of rows in insertion order;
a raised/propagating Python exception as `Except.error`.
-/

namespace NtuIot

/-- Association-list lookup on string-keyed lists (models Python dict
subscripting / Firebase child lookup; returns `none` where Python would
raise `KeyError` or Firebase would return null). -/
def alookup {β : Type} : List (String × β) → String → Option β
  | [], _ => none
  | (k, v) :: rest, f => if k = f then some v else alookup rest f

/-! ### src/iot_mqtt.py -/

/-- Topic constant `TOPIC_SENSOR = "shelf/sensor"`. -/
def TOPIC_SENSOR : String := "shelf/sensor"

/-- Topic constant `TOPIC_STATUS = "shelf/status"`. -/
def TOPIC_STATUS : String := "shelf/status"

/-- Topic constant `TOPIC_COMMAND = "shelf/command"` (declared but never
subscribed to). -/
def TOPIC_COMMAND : String := "shelf/command"

/-- `SHELF_CONFIG`: the static shelf table of `iot_mqtt.py`; each entry's
Python value is a dict `{"max_distance": x}`, modelled by the rational `x`. -/
def SHELF_CONFIG : List (String × ℚ) := [("A1", 30), ("A2", 30), ("B1", 20)]

/-- `analyze_shelf_data(shelf_id, distance_cm)` of `iot_mqtt.py`:
returns `(occupied, fill_percent)`.  Unknown shelf → `(False, 0.0)`;
otherwise `occupied_space = max_distance - distance_cm`, and when
`occupied_space > 2.0` the fill percentage is
`max(0, min(100, occupied_space / max_distance * 100))`, else `(False, 0.0)`. -/
def analyze_shelf_data (shelf_id : String) (distance_cm : ℚ) : Bool × ℚ :=
  match alookup SHELF_CONFIG shelf_id with
  | none => (false, 0)
  | some max_distance =>
      let occupied_space := max_distance - distance_cm
      if occupied_space > 2 then
        (true, max 0 (min 100 (occupied_space / max_distance * 100)))
      else
        (false, 0)

/-- One row of the SQLite table `sensor_data` (the autoincrement id is the
position in the list). -/
structure SensorRow where
  shelf_id : String
  distance_cm : ℚ
  occupied : Bool
  fill_percent : ℚ
  timestamp : String
deriving DecidableEq

/-- The `sensor_data` table, in insertion order. -/
abbrev DB := List SensorRow

/-- `save_to_database` of `iot_mqtt.py`: a single unconditional `INSERT`. -/
def save_to_database (db : DB) (shelf_id : String) (distance_cm : ℚ)
    (occupied : Bool) (fill_percent : ℚ) (timestamp : String) : DB :=
  db ++ [⟨shelf_id, distance_cm, occupied, fill_percent, timestamp⟩]

/-- The parsed JSON payload of a sensor message: `data.get('shelf_id','N/A')`
and `data.get('distance_cm', -1)` read these two optional fields. -/
structure SensorMsg where
  shelf_id : Option String
  distance_cm : Option ℚ
deriving DecidableEq

/-- `handle_sensor_message` of `iot_mqtt.py` acting on the database state.
`none` is a payload that fails JSON parsing (the exception is caught, nothing
is written).  A distance that is `-1` or negative is rejected without a
write; otherwise the analysed row is inserted. -/
def handle_sensor_message (payload : Option SensorMsg) (timestamp : String)
    (db : DB) : DB :=
  match payload with
  | none => db
  | some data =>
      let shelf_id := data.shelf_id.getD "N/A"
      let distance_cm := data.distance_cm.getD (-1)
      if distance_cm = -1 ∨ distance_cm < 0 then
        db
      else
        let r := analyze_shelf_data shelf_id distance_cm
        save_to_database db shelf_id distance_cm r.1 r.2 timestamp

/-- `handle_status_message` of `iot_mqtt.py` only prints; the database state
is untouched. -/
def handle_status_message (db : DB) : DB := db

/-- An inbound MQTT message as seen by `on_message`: its topic, its payload
(already in parsed form; only sensor handling inspects it) and the receipt
timestamp. -/
structure InMsg where
  topic : String
  payload : Option SensorMsg
  timestamp : String

/-- `on_message` of `iot_mqtt.py`: dispatch on the topic; any topic other
than `shelf/sensor` and `shelf/status` is ignored. -/
def on_message (m : InMsg) (db : DB) : DB :=
  if m.topic = TOPIC_SENSOR then handle_sensor_message m.payload m.timestamp db
  else if m.topic = TOPIC_STATUS then handle_status_message db
  else db

/-- The topics `on_connect` of `iot_mqtt.py` subscribes to, as a function of
the connection result code (on `rc ≠ 0` it only prints an error). -/
def on_connect_subscribed (rc : Int) : List String :=
  if rc = 0 then [TOPIC_SENSOR, TOPIC_STATUS] else []

/-- Insertion into a list kept in descending `timestamp` order (models the
`ORDER BY timestamp DESC` of `query_latest_data`). -/
def insertDescByTimestamp (r : SensorRow) : List SensorRow → List SensorRow
  | [] => [r]
  | x :: xs =>
      if x.timestamp ≤ r.timestamp then r :: x :: xs
      else x :: insertDescByTimestamp r xs

/-- `query_latest_data` of `iot_mqtt.py`: a pure read — filter by shelf when
one is given, order by timestamp descending, take `limit` rows.  It never
writes to the database. -/
def query_latest_data (db : DB) (shelf_id : Option String) (lim : Nat) :
    List SensorRow :=
  let rows : List SensorRow := match shelf_id with
    | some s => db.filter (fun r => r.shelf_id = s)
    | none => db
  (rows.foldr insertDescByTimestamp []).take lim

/-- The operations the ingester performs on the `sensor_data` store. -/
inductive IngestOp where
  | save (shelf_id : String) (distance_cm : ℚ) (occupied : Bool)
      (fill_percent : ℚ) (timestamp : String)
  | query (shelf_id : Option String) (lim : Nat)

/-- Effect of an `IngestOp` on the stored rows: `save` inserts, `query` reads
(`query_latest_data` leaves the state unchanged). -/
def applyOp (op : IngestOp) (db : DB) : DB :=
  match op with
  | .save s d o f t => save_to_database db s d o f t
  | .query _ _ => db

/-- Processing a stream of inbound MQTT messages, in order. -/
def processAll (msgs : List InMsg) (db : DB) : DB :=
  msgs.foldl (fun acc m => on_message m acc) db

/-- The spec's glossary formula for the fill percentage:
`(maxDistance − measuredDistance) / maxDistance × 100`, clamped to [0,100].
Stated from the spec's words, to be compared with `analyze_shelf_data`. -/
def fillPercentSpec (maxD d : ℚ) : ℚ :=
  max 0 (min 100 ((maxD - d) / maxD * 100))

/-! ### src/iot_firebase_pb.py -/

/-- A Python scalar stored in a product document (the script only ever
compares and writes strings and integers). -/
inductive PyVal where
  | str (s : String)
  | int (n : Int)
deriving DecidableEq

/-- A Firebase product document: a field-name-to-value dictionary. -/
abbrev PDoc := List (String × PyVal)

/-- The fetched `product` collection: push-key to document. -/
abbrev ProductsDB := List (String × PDoc)

/-- Setting one field of a document (Firebase `update` merge semantics on
that document: the named field is written, every other field is kept). -/
def setField (fs : PDoc) (k : String) (v : PyVal) : PDoc :=
  if fs.any (fun p => p.1 == k) then
    fs.map (fun p => if p.1 = k then (p.1, v) else p)
  else
    fs ++ [(k, v)]

/-- `update_product_detail(key_to_update, number)` of `iot_firebase_pb.py`:
`db.child("product").child(key_to_update).update({"number": number})`.  The
document at the key gets its `number` field written; a missing key would be
created by Firebase. -/
def update_product_detail (key_to_update : String) (number : PyVal)
    (db : ProductsDB) : ProductsDB :=
  if db.any (fun p => p.1 == key_to_update) then
    db.map (fun p =>
      if p.1 = key_to_update then (p.1, setField p.2 "number" number) else p)
  else
    db ++ [(key_to_update, [("number", number)])]

/-- `get_product_ids_by_rack_id(target_rack_id)` of `iot_firebase_pb.py`:
iterate over the fetched collection in order, return the key of the first
item whose `rack_id` field equals the target; return Python `False`
(modelled `none`) when no item matches.  A document without a `rack_id`
field raises `KeyError` (modelled `Except.error`). -/
def get_product_ids_by_rack_id (target_rack_id : PyVal) :
    ProductsDB → Except Unit (Option String)
  | [] => .ok none
  | (k, doc) :: rest =>
      match alookup doc "rack_id" with
      | none => .error ()
      | some v =>
          if target_rack_id = v then .ok (some k)
          else get_product_ids_by_rack_id target_rack_id rest

/-- `search_and_update(rack_id_to_search, product_number)` of
`iot_firebase_pb.py`: look the key up and, under Python truthiness of the
result (`False` and the empty string are falsy), update that document's
`number` field.  The collection argument stands for the snapshot fetched at
module load, which the update is applied to. -/
def search_and_update (rack_id_to_search : PyVal) (product_number : PyVal)
    (db : ProductsDB) : Except Unit ProductsDB :=
  match get_product_ids_by_rack_id rack_id_to_search db with
  | .error e => .error e
  | .ok none => .ok db
  | .ok (some k) =>
      if k = "" then .ok db else .ok (update_product_detail k product_number db)

/-- Module-level binding `rack_id_to_search = "2"` of `iot_firebase_pb.py`
(shadowed by the function parameter, never read). -/
def rack_id_to_search : PyVal := .str "2"

/-- Module-level binding `product_number = "0"` of `iot_firebase_pb.py`
(likewise never read). -/
def product_number : PyVal := .str "0"

/-- The demonstration call executed at the bottom of the script:
`search_and_update("A3", 120)`. -/
def demo_run (db : ProductsDB) : Except Unit ProductsDB :=
  search_and_update (.str "A3") (.int 120) db

/-! ### Helper lemmas: the ingester -/

theorem analyze_fill_bounds (shelf : String) (d : ℚ) :
    0 ≤ (analyze_shelf_data shelf d).2 ∧ (analyze_shelf_data shelf d).2 ≤ 100 := by
  rcases h : alookup SHELF_CONFIG shelf with _ | m
  · simp [analyze_shelf_data, h]
  · simp only [analyze_shelf_data, h]
    split
    · exact ⟨le_max_left _ _, max_le (by norm_num) (min_le_left _ _)⟩
    · simp

theorem handle_sensor_append (p : Option SensorMsg) (ts : String) (db : DB) :
    ∃ t, handle_sensor_message p ts db = db ++ t := by
  cases p with
  | none => exact ⟨[], by simp [handle_sensor_message]⟩
  | some data =>
      by_cases hc : data.distance_cm.getD (-1) = -1 ∨ data.distance_cm.getD (-1) < 0
      · exact ⟨[], by simp [handle_sensor_message, hc]⟩
      · refine ⟨[⟨data.shelf_id.getD "N/A", data.distance_cm.getD (-1),
          (analyze_shelf_data (data.shelf_id.getD "N/A") (data.distance_cm.getD (-1))).1,
          (analyze_shelf_data (data.shelf_id.getD "N/A") (data.distance_cm.getD (-1))).2,
          ts⟩], ?_⟩
        simp [handle_sensor_message, hc, save_to_database]

theorem on_message_append (m : InMsg) (db : DB) :
    ∃ t, on_message m db = db ++ t := by
  by_cases h1 : m.topic = TOPIC_SENSOR
  · simpa [on_message, h1] using handle_sensor_append m.payload m.timestamp db
  · by_cases h2 : m.topic = TOPIC_STATUS
    · exact ⟨[], by simp [on_message, h1, h2, handle_status_message,
        TOPIC_SENSOR, TOPIC_STATUS]⟩
    · exact ⟨[], by simp [on_message, h1, h2]⟩

theorem mem_handle_sensor {r : SensorRow} (p : Option SensorMsg) (ts : String)
    (db : DB) (h : r ∈ handle_sensor_message p ts db) :
    r ∈ db ∨ ∃ sid d ts2, r =
      ⟨sid, d, (analyze_shelf_data sid d).1, (analyze_shelf_data sid d).2, ts2⟩ := by
  cases p with
  | none => exact Or.inl (by simpa [handle_sensor_message] using h)
  | some data =>
      by_cases hc : data.distance_cm.getD (-1) = -1 ∨ data.distance_cm.getD (-1) < 0
      · exact Or.inl (by simpa [handle_sensor_message, hc] using h)
      · simp [handle_sensor_message, hc, save_to_database] at h
        rcases h with h' | h'
        · exact Or.inl h'
        · exact Or.inr ⟨data.shelf_id.getD "N/A", data.distance_cm.getD (-1), ts, h'⟩

theorem mem_on_message {r : SensorRow} (m : InMsg) (db : DB)
    (h : r ∈ on_message m db) :
    r ∈ db ∨ ∃ sid d ts, r =
      ⟨sid, d, (analyze_shelf_data sid d).1, (analyze_shelf_data sid d).2, ts⟩ := by
  by_cases h1 : m.topic = TOPIC_SENSOR
  · exact mem_handle_sensor m.payload m.timestamp db (by simpa [on_message, h1] using h)
  · by_cases h2 : m.topic = TOPIC_STATUS
    · exact Or.inl (by simpa [on_message, h1, h2, handle_status_message,
        TOPIC_SENSOR, TOPIC_STATUS] using h)
    · exact Or.inl (by simpa [on_message, h1, h2] using h)

theorem mem_processAll {r : SensorRow} (msgs : List InMsg) (db : DB)
    (h : r ∈ processAll msgs db) :
    r ∈ db ∨ ∃ sid d ts, r =
      ⟨sid, d, (analyze_shelf_data sid d).1, (analyze_shelf_data sid d).2, ts⟩ := by
  induction msgs generalizing db with
  | nil => exact Or.inl (by simpa [processAll] using h)
  | cons m rest ih =>
      rcases ih (on_message m db) (by simpa [processAll] using h) with h' | h'
      · exact mem_on_message m db h'
      · exact Or.inr h'

/-! ### Claim theorems: the ingester -/

/-- C1, counterexample: on shelf `A1` (max distance 30) at distance 29 the
occupied space is 1 cm ≤ 2 cm, so `analyze_shelf_data` returns fill 0,
while the spec's clamped formula gives 10/3; so the fill percentage does not
always equal the clamped formula. -/
theorem fill_deadzone_counterexample :
    alookup SHELF_CONFIG "A1" = some 30 ∧ (0 : ℚ) ≤ 29 ∧
    (analyze_shelf_data "A1" 29).2 = 0 ∧
    fillPercentSpec 30 29 = 10 / 3 ∧
    (analyze_shelf_data "A1" 29).2 ≠ fillPercentSpec 30 29 := by
  have h1 : (analyze_shelf_data "A1" 29).2 = 0 := by
    simp [analyze_shelf_data, alookup, SHELF_CONFIG]
    norm_num
  have h2 : fillPercentSpec 30 29 = 10 / 3 := by
    simp [fillPercentSpec, max_def, min_def]
    norm_num
  refine ⟨rfl, by norm_num, h1, h2, ?_⟩
  rw [h1, h2]
  norm_num

/-- C1, amended: for every shelf in `SHELF_CONFIG` and non-negative measured
distance, the fill percentage equals the spec's clamped formula when the
occupied space exceeds the 2 cm margin, and 0 otherwise. -/
theorem analyze_fill_amended (shelf : String) (m d : ℚ)
    (hm : alookup SHELF_CONFIG shelf = some m) (_hd : 0 ≤ d) :
    (analyze_shelf_data shelf d).2 =
      if 2 < m - d then fillPercentSpec m d else 0 := by
  simp only [analyze_shelf_data, hm, fillPercentSpec, gt_iff_lt]
  by_cases hc : 2 < m - d
  · simp [hc]
  · simp [hc]

theorem analyze_fill_amended_witness :
    (analyze_shelf_data "A1" 5).2 =
      if 2 < (30 : ℚ) - 5 then fillPercentSpec 30 5 else 0 :=
  analyze_fill_amended "A1" 30 5 rfl (by norm_num)

/-- C3: for every shelf present in `SHELF_CONFIG` and every measured
distance, the occupied flag is true exactly when the occupied space
`max_distance - distance` exceeds the fixed 2 cm margin. -/
theorem analyze_occupied_iff (shelf : String) (m d : ℚ)
    (hm : alookup SHELF_CONFIG shelf = some m) :
    ((analyze_shelf_data shelf d).1 = true ↔ 2 < m - d) := by
  simp only [analyze_shelf_data, hm, gt_iff_lt]
  by_cases hc : 2 < m - d
  · simp [hc]
  · simp [hc]

theorem analyze_occupied_iff_witness :
    ((analyze_shelf_data "A1" 5).1 = true ↔ 2 < (30 : ℚ) - 5) :=
  analyze_occupied_iff "A1" 30 5 rfl

/-- C4: the fill percentage produced by `analyze_shelf_data` lies in [0,100]
for every shelf identifier and every distance, and hence so does the
`fill_percent` of every row the ingester ever stores. -/
theorem fill_percent_in_range :
    (∀ (shelf : String) (d : ℚ),
        0 ≤ (analyze_shelf_data shelf d).2 ∧ (analyze_shelf_data shelf d).2 ≤ 100) ∧
    (∀ (msgs : List InMsg) (r : SensorRow), r ∈ processAll msgs [] →
        0 ≤ r.fill_percent ∧ r.fill_percent ≤ 100) := by
  refine ⟨analyze_fill_bounds, ?_⟩
  intro msgs r hr
  rcases mem_processAll msgs [] hr with h | ⟨sid, d, ts, rfl⟩
  · cases h
  · exact analyze_fill_bounds sid d

theorem fill_percent_in_range_witness :
    0 ≤ (⟨"Z9", 5, false, 0, "t"⟩ : SensorRow).fill_percent ∧
    (⟨"Z9", 5, false, 0, "t"⟩ : SensorRow).fill_percent ≤ 100 :=
  fill_percent_in_range.2 [⟨TOPIC_SENSOR, some ⟨some "Z9", some 5⟩, "t"⟩]
    ⟨"Z9", 5, false, 0, "t"⟩
    (by simp [processAll, on_message, handle_sensor_message, save_to_database,
        analyze_shelf_data, alookup, SHELF_CONFIG]
        norm_num)

/-- C5: the `sensor_data` store is append-only: every `IngestOp` (a
`save_to_database` insert or a `query_latest_data` read) and every inbound
message extend the stored rows on the right, leaving all previously stored
rows in place. -/
theorem sensor_data_append_only :
    (∀ (op : IngestOp) (db : DB), ∃ t, applyOp op db = db ++ t) ∧
    (∀ (m : InMsg) (db : DB), ∃ t, on_message m db = db ++ t) := by
  constructor
  · intro op db
    cases op with
    | save s d o f ts => exact ⟨[⟨s, d, o, f, ts⟩], rfl⟩
    | query s l => exact ⟨[], (List.append_nil db).symm⟩
  · exact on_message_append

/-- C6: `on_connect` subscribes to exactly `shelf/sensor` and
`shelf/status`; `on_message` dispatches `shelf/sensor` to
`handle_sensor_message`, `shelf/status` to `handle_status_message` (which
leaves the database unchanged), and ignores every other topic. -/
theorem ingester_dispatch :
    on_connect_subscribed 0 = [TOPIC_SENSOR, TOPIC_STATUS] ∧
    (∀ (m : InMsg) (db : DB), m.topic = TOPIC_SENSOR →
        on_message m db = handle_sensor_message m.payload m.timestamp db) ∧
    (∀ (m : InMsg) (db : DB), m.topic = TOPIC_STATUS →
        on_message m db = handle_status_message db ∧ on_message m db = db) ∧
    (∀ (m : InMsg) (db : DB), m.topic ≠ TOPIC_SENSOR → m.topic ≠ TOPIC_STATUS →
        on_message m db = db) := by
  refine ⟨rfl, ?_, ?_, ?_⟩
  · intro m db h
    simp [on_message, h]
  · intro m db h
    constructor
    · simp [on_message, h, TOPIC_SENSOR, TOPIC_STATUS]
    · simp [on_message, h, TOPIC_SENSOR, TOPIC_STATUS, handle_status_message]
  · intro m db h1 h2
    simp [on_message, h1, h2]

theorem ingester_dispatch_witness :
    on_message ⟨TOPIC_COMMAND, none, "t"⟩ [] = [] :=
  ingester_dispatch.2.2.2 ⟨TOPIC_COMMAND, none, "t"⟩ [] (by decide) (by decide)

/-- C9: a sensor message whose `distance_cm` is absent (defaulting to -1) or
negative is rejected by `handle_sensor_message` without any database
write. -/
theorem invalid_distance_not_saved (data : SensorMsg) (ts : String) (db : DB)
    (h : data.distance_cm = none ∨ ∃ d, data.distance_cm = some d ∧ d < 0) :
    handle_sensor_message (some data) ts db = db := by
  rcases h with h | ⟨d, hd, hneg⟩
  · simp [handle_sensor_message, h]
  · simp [handle_sensor_message, hd, hneg]

theorem invalid_distance_not_saved_witness :
    handle_sensor_message (some ⟨some "A1", some (-3)⟩) "t" [] = [] :=
  invalid_distance_not_saved ⟨some "A1", some (-3)⟩ "t" []
    (Or.inr ⟨-3, rfl, by norm_num⟩)

/-- C10: a sensor message for a shelf that is not in `SHELF_CONFIG`
(including the default `N/A` when the field is absent) with a non-negative
distance is analysed as `(false, 0)` and its row is nevertheless inserted
into the database. -/
theorem unknown_shelf_saved (data : SensorMsg) (ts : String) (db : DB) (d : ℚ)
    (hd : data.distance_cm = some d) (h0 : 0 ≤ d)
    (hs : alookup SHELF_CONFIG (data.shelf_id.getD "N/A") = none) :
    analyze_shelf_data (data.shelf_id.getD "N/A") d = (false, 0) ∧
    handle_sensor_message (some data) ts db =
      db ++ [⟨data.shelf_id.getD "N/A", d, false, 0, ts⟩] := by
  have ha : analyze_shelf_data (data.shelf_id.getD "N/A") d = (false, 0) := by
    simp [analyze_shelf_data, hs]
  have hne : ¬(d = -1 ∨ d < 0) := by
    rintro (rfl | hlt)
    · norm_num at h0
    · exact absurd h0 (not_le.mpr hlt)
  refine ⟨ha, ?_⟩
  simp [handle_sensor_message, hd, hne, save_to_database, ha]

theorem unknown_shelf_saved_witness :
    analyze_shelf_data ((some "X7").getD "N/A") 5 = (false, 0) ∧
    handle_sensor_message (some ⟨some "X7", some 5⟩) "t" [] =
      [] ++ [⟨"X7", 5, false, 0, "t"⟩] :=
  unknown_shelf_saved ⟨some "X7", some 5⟩ "t" [] 5 rfl (by norm_num) rfl

/-! ### Helper lemmas: the inventory patcher -/

theorem any_key_of_mem {β : Type} {db : List (String × β)} {key : String}
    {b : β} (h : (key, b) ∈ db) : db.any (fun p => p.1 == key) = true :=
  List.any_eq_true.mpr ⟨(key, b), h, by simp⟩

theorem update_eq_map_of_mem {db : ProductsDB} {key : String} {doc : PDoc}
    (number : PyVal) (h : (key, doc) ∈ db) :
    update_product_detail key number db =
      db.map (fun p =>
        if p.1 = key then (p.1, setField p.2 "number" number) else p) := by
  rw [update_product_detail, if_pos (any_key_of_mem h)]

theorem alookup_map_set_self (k : String) (v : PyVal) (fs : PDoc) :
    fs.any (fun p => p.1 == k) = true →
    alookup (fs.map (fun p => if p.1 = k then (p.1, v) else p)) k = some v := by
  induction fs with
  | nil => intro h; simp at h
  | cons q rest ih =>
      obtain ⟨a, b⟩ := q
      intro h
      by_cases ha : a = k
      · simp only [List.map_cons]
        rw [if_pos ha]
        simp only [alookup]
        rw [if_pos ha]
      · have h' : rest.any (fun p => p.1 == k) = true := by
          simpa [List.any_cons, ha] using h
        simp only [List.map_cons]
        rw [if_neg ha]
        simp only [alookup]
        rw [if_neg ha]
        exact ih h'

theorem alookup_append_self (k : String) (v : PyVal) (fs : PDoc)
    (h : ∀ p ∈ fs, p.1 ≠ k) :
    alookup (fs ++ [(k, v)]) k = some v := by
  induction fs with
  | nil => simp [alookup]
  | cons q rest ih =>
      obtain ⟨a, b⟩ := q
      have ha : a ≠ k := h (a, b) (by simp)
      simpa [alookup, ha] using ih fun p hp => h p (by simp [hp])

theorem alookup_setField_self (fs : PDoc) (k : String) (v : PyVal) :
    alookup (setField fs k v) k = some v := by
  rw [setField]
  split
  · next h => exact alookup_map_set_self k v fs h
  · next h =>
      refine alookup_append_self k v fs fun p hp hpk => ?_
      exact absurd (List.any_eq_true.mpr ⟨p, hp, by simp [hpk]⟩) h

theorem alookup_map_set_ne (k f : String) (v : PyVal) (hfk : f ≠ k)
    (fs : PDoc) :
    alookup (fs.map (fun p => if p.1 = k then (p.1, v) else p)) f =
      alookup fs f := by
  induction fs with
  | nil => rfl
  | cons q rest ih =>
      obtain ⟨a, b⟩ := q
      by_cases ha : a = k
      · have haf : ¬a = f := fun hh => hfk (hh ▸ ha)
        simp only [List.map_cons]
        rw [if_pos ha]
        simp only [alookup]
        rw [if_neg haf, if_neg haf, ih]
      · simp only [List.map_cons]
        rw [if_neg ha]
        simp only [alookup]
        by_cases haf : a = f
        · rw [if_pos haf, if_pos haf]
        · rw [if_neg haf, if_neg haf, ih]

theorem alookup_append_ne (k f : String) (v : PyVal) (hfk : f ≠ k)
    (fs : PDoc) :
    alookup (fs ++ [(k, v)]) f = alookup fs f := by
  have hkf : ¬k = f := fun hh => hfk hh.symm
  induction fs with
  | nil => simp [alookup, hkf]
  | cons q rest ih =>
      obtain ⟨a, b⟩ := q
      by_cases ha : a = f <;> simp [alookup, ha, ih]

theorem alookup_setField_ne (fs : PDoc) (k f : String) (v : PyVal)
    (hfk : f ≠ k) :
    alookup (setField fs k v) f = alookup fs f := by
  rw [setField]
  split
  · exact alookup_map_set_ne k f v hfk fs
  · exact alookup_append_ne k f v hfk fs

theorem alookup_map_update_self (key : String) (doc : PDoc) (number : PyVal)
    (db : ProductsDB) :
    (key, doc) ∈ db → (db.map Prod.fst).Nodup →
    alookup (db.map (fun p =>
        if p.1 = key then (p.1, setField p.2 "number" number) else p)) key =
      some (setField doc "number" number) := by
  induction db with
  | nil => intro h _; cases h
  | cons q rest ih =>
      obtain ⟨a, b⟩ := q
      intro hmem hnd
      rw [List.map_cons] at hnd
      rcases List.nodup_cons.mp hnd with ⟨hnotin, hnd'⟩
      rcases List.mem_cons.mp hmem with heq | hmem'
      · injection heq with h1 h2
        subst h1
        subst h2
        simp only [List.map_cons]
        rw [if_pos trivial]
        simp only [alookup]
        rw [if_pos trivial]
      · have hkmem : key ∈ rest.map Prod.fst :=
          List.mem_map.mpr ⟨(key, doc), hmem', rfl⟩
        have ha : ¬a = key := fun hae => hnotin (by rw [hae]; exact hkmem)
        simp only [List.map_cons]
        rw [if_neg ha]
        simp only [alookup]
        rw [if_neg ha]
        exact ih hmem' hnd'

theorem get_ids_of_find (target : PyVal) (k : String) (doc : PDoc)
    (db : ProductsDB) :
    (∀ p ∈ db, (alookup p.2 "rack_id").isSome) →
    db.find? (fun p => alookup p.2 "rack_id" == some target) = some (k, doc) →
    get_product_ids_by_rack_id target db = .ok (some k) := by
  induction db with
  | nil => intro _ hf; simp at hf
  | cons q rest ih =>
      obtain ⟨kq, dq⟩ := q
      intro hrack hf
      obtain ⟨v, hv⟩ := Option.isSome_iff_exists.mp (hrack (kq, dq) (by simp))
      cases hb : (alookup dq "rack_id" == some target) with
      | false =>
          simp only [List.find?_cons, hb] at hf
          have hne : target ≠ v := by
            intro he
            rw [hv, ← he] at hb
            simp at hb
          simp only [get_product_ids_by_rack_id, hv]
          rw [if_neg hne]
          exact ih (fun p hp => hrack p (by simp [hp])) hf
      | true =>
          simp only [List.find?_cons, hb] at hf
          injection hf with hf1
          injection hf1 with h1 h2
          subst h1
          subst h2
          have hbv : alookup dq "rack_id" = some target := by simpa using hb
          simp [get_product_ids_by_rack_id, hbv]

/-! ### Claim theorems: the inventory patcher -/

/-- C2: with a fetched collection whose documents all carry a `rack_id`
field and whose push keys are non-empty and distinct, `search_and_update`
finds the key of the first record whose `rack_id` equals the target (the
linear scan of `get_product_ids_by_rack_id`) and, when one exists, updates
exactly that record so its `number` field holds the given value. -/
theorem search_and_update_first_match (db : ProductsDB)
    (target number : PyVal) (k : String) (doc : PDoc)
    (hrack : ∀ p ∈ db, (alookup p.2 "rack_id").isSome)
    (hkeys : ∀ p ∈ db, p.1 ≠ "")
    (hnd : (db.map Prod.fst).Nodup)
    (hfind : db.find? (fun p => alookup p.2 "rack_id" == some target) =
      some (k, doc)) :
    get_product_ids_by_rack_id target db = .ok (some k) ∧
    search_and_update target number db =
      .ok (update_product_detail k number db) ∧
    alookup (update_product_detail k number db) k =
      some (setField doc "number" number) ∧
    alookup (setField doc "number" number) "number" = some number := by
  have hget := get_ids_of_find target k doc db hrack hfind
  have hmem : (k, doc) ∈ db := List.mem_of_find?_eq_some hfind
  have hk : k ≠ "" := hkeys (k, doc) hmem
  refine ⟨hget, ?_, ?_, alookup_setField_self doc "number" number⟩
  · simp [search_and_update, hget, hk]
  · rw [update_eq_map_of_mem number hmem]
    exact alookup_map_update_self k doc number db hmem hnd

theorem search_and_update_first_match_witness :
    get_product_ids_by_rack_id (PyVal.str "A3")
        [("kA", [("rack_id", PyVal.str "B"), ("number", PyVal.int 1)]),
         ("kB", [("rack_id", PyVal.str "A3"), ("number", PyVal.int 2)])] =
      .ok (some "kB") ∧
    search_and_update (PyVal.str "A3") (PyVal.int 120)
        [("kA", [("rack_id", PyVal.str "B"), ("number", PyVal.int 1)]),
         ("kB", [("rack_id", PyVal.str "A3"), ("number", PyVal.int 2)])] =
      .ok (update_product_detail "kB" (PyVal.int 120)
        [("kA", [("rack_id", PyVal.str "B"), ("number", PyVal.int 1)]),
         ("kB", [("rack_id", PyVal.str "A3"), ("number", PyVal.int 2)])]) ∧
    alookup (update_product_detail "kB" (PyVal.int 120)
        [("kA", [("rack_id", PyVal.str "B"), ("number", PyVal.int 1)]),
         ("kB", [("rack_id", PyVal.str "A3"), ("number", PyVal.int 2)])]) "kB" =
      some (setField [("rack_id", PyVal.str "A3"), ("number", PyVal.int 2)]
        "number" (PyVal.int 120)) ∧
    alookup (setField [("rack_id", PyVal.str "A3"), ("number", PyVal.int 2)]
        "number" (PyVal.int 120)) "number" = some (PyVal.int 120) :=
  search_and_update_first_match
    [("kA", [("rack_id", PyVal.str "B"), ("number", PyVal.int 1)]),
     ("kB", [("rack_id", PyVal.str "A3"), ("number", PyVal.int 2)])]
    (PyVal.str "A3") (PyVal.int 120) "kB"
    [("rack_id", PyVal.str "A3"), ("number", PyVal.int 2)]
    (by decide) (by decide) (by decide) (by decide)

/-- C7: `update_product_detail` on a matched key (keys distinct, key
present) changes exactly one document: the length is preserved, every
other position is untouched, and the matched document only has its
`number` field rewritten to the given value, every other field keeping its
old value. -/
theorem update_product_detail_frame (db : ProductsDB) (key : String)
    (number : PyVal) (doc : PDoc)
    (hnd : (db.map Prod.fst).Nodup) (hmem : (key, doc) ∈ db) :
    (update_product_detail key number db).length = db.length ∧
    ∃ i : Nat, db[i]? = some (key, doc) ∧
      (update_product_detail key number db)[i]? =
        some (key, setField doc "number" number) ∧
      (∀ j : Nat, j ≠ i → (update_product_detail key number db)[j]? = db[j]?) ∧
      (∀ f, f ≠ "number" →
          alookup (setField doc "number" number) f = alookup doc f) ∧
      alookup (setField doc "number" number) "number" = some number := by
  rw [update_eq_map_of_mem number hmem]
  refine ⟨List.length_map db _, ?_⟩
  obtain ⟨n, hn⟩ := List.get_of_mem hmem
  have hget : db[n.1]? = some (key, doc) := by
    rw [List.getElem?_eq_getElem n.2]
    exact congrArg some ((List.get_eq_getElem db n).symm.trans hn)
  have happ : (fun p : String × PDoc =>
      if p.1 = key then (p.1, setField p.2 "number" number) else p) (key, doc) =
      (key, setField doc "number" number) := by
    show (if (key, doc).1 = key
        then ((key, doc).1, setField (key, doc).2 "number" number)
        else (key, doc)) = (key, setField doc "number" number)
    rw [if_pos rfl]
  refine ⟨n.1, hget, ?_, ?_,
    fun f hf => alookup_setField_ne doc "number" f number hf,
    alookup_setField_self doc "number" number⟩
  · rw [List.getElem?_map, hget]
    exact congrArg some happ
  · intro j hj
    rw [List.getElem?_map]
    cases hjv : db[j]? with
    | none => rfl
    | some p =>
        obtain ⟨a, b⟩ := p
        have hak : ¬a = key := by
          intro hak
          have h1 : (db.map Prod.fst)[j]? = some key := by
            rw [List.getElem?_map, hjv]
            exact congrArg some hak
          have h2 : (db.map Prod.fst)[n.1]? = some key := by
            rw [List.getElem?_map, hget]
            rfl
          have hlen : n.1 < (db.map Prod.fst).length := by
            rw [List.length_map]
            exact n.2
          exact hj (List.getElem?_inj hlen hnd (h2.trans h1.symm)).symm
        have happ2 : (fun p : String × PDoc =>
            if p.1 = key then (p.1, setField p.2 "number" number) else p) (a, b) =
            (a, b) := by
          show (if a = key then (a, setField b "number" number) else (a, b)) =
            (a, b)
          rw [if_neg hak]
        exact congrArg some happ2

theorem update_product_detail_frame_witness :
    (update_product_detail "p2" (PyVal.int 120)
        [("p1", [("rack_id", PyVal.str "A1"), ("number", PyVal.int 7)]),
         ("p2", [("rack_id", PyVal.str "A2"), ("number", PyVal.int 9)])]).length =
      ([("p1", [("rack_id", PyVal.str "A1"), ("number", PyVal.int 7)]),
        ("p2", [("rack_id", PyVal.str "A2"), ("number", PyVal.int 9)])] :
        ProductsDB).length ∧
    ∃ i : Nat, ([("p1", [("rack_id", PyVal.str "A1"), ("number", PyVal.int 7)]),
        ("p2", [("rack_id", PyVal.str "A2"), ("number", PyVal.int 9)])] :
        ProductsDB)[i]? =
        some ("p2", [("rack_id", PyVal.str "A2"), ("number", PyVal.int 9)]) ∧
      (update_product_detail "p2" (PyVal.int 120)
        [("p1", [("rack_id", PyVal.str "A1"), ("number", PyVal.int 7)]),
         ("p2", [("rack_id", PyVal.str "A2"), ("number", PyVal.int 9)])])[i]? =
        some ("p2", setField [("rack_id", PyVal.str "A2"), ("number", PyVal.int 9)]
          "number" (PyVal.int 120)) ∧
      (∀ j : Nat, j ≠ i → (update_product_detail "p2" (PyVal.int 120)
          [("p1", [("rack_id", PyVal.str "A1"), ("number", PyVal.int 7)]),
           ("p2", [("rack_id", PyVal.str "A2"), ("number", PyVal.int 9)])])[j]? =
        ([("p1", [("rack_id", PyVal.str "A1"), ("number", PyVal.int 7)]),
          ("p2", [("rack_id", PyVal.str "A2"), ("number", PyVal.int 9)])] :
          ProductsDB)[j]?) ∧
      (∀ f, f ≠ "number" →
          alookup (setField [("rack_id", PyVal.str "A2"), ("number", PyVal.int 9)]
            "number" (PyVal.int 120)) f =
          alookup [("rack_id", PyVal.str "A2"), ("number", PyVal.int 9)] f) ∧
      alookup (setField [("rack_id", PyVal.str "A2"), ("number", PyVal.int 9)]
        "number" (PyVal.int 120)) "number" = some (PyVal.int 120) :=
  update_product_detail_frame
    [("p1", [("rack_id", PyVal.str "A1"), ("number", PyVal.int 7)]),
     ("p2", [("rack_id", PyVal.str "A2"), ("number", PyVal.int 9)])]
    "p2" (PyVal.int 120)
    [("rack_id", PyVal.str "A2"), ("number", PyVal.int 9)]
    (by decide) (by decide)

/-- C8: the module-level binding `rack_id_to_search = "2"` is shadowed by
the function parameter and never read: the demonstration run is exactly
`search_and_update "A3" 120`, and on a suitable collection this differs
from what `search_and_update rack_id_to_search product_number` would do. -/
theorem demo_call_uses_A3 :
    rack_id_to_search = PyVal.str "2" ∧
    product_number = PyVal.str "0" ∧
    (∀ db : ProductsDB,
      demo_run db = search_and_update (PyVal.str "A3") (PyVal.int 120) db) ∧
    (∃ db : ProductsDB,
      demo_run db ≠ search_and_update rack_id_to_search product_number db) := by
  refine ⟨rfl, rfl, fun db => rfl,
    ⟨[("kA", [("rack_id", PyVal.str "A3"), ("number", PyVal.int 1)])], ?_⟩⟩
  intro h
  have h1 : demo_run
      [("kA", [("rack_id", PyVal.str "A3"), ("number", PyVal.int 1)])] =
      .ok [("kA", [("rack_id", PyVal.str "A3"), ("number", PyVal.int 120)])] := rfl
  have h2 : search_and_update rack_id_to_search product_number
      [("kA", [("rack_id", PyVal.str "A3"), ("number", PyVal.int 1)])] =
      .ok [("kA", [("rack_id", PyVal.str "A3"), ("number", PyVal.int 1)])] := rfl
  rw [h1, h2] at h
  injection h with h'
  exact absurd h' (by decide)

end NtuIot
